import Mathlib

/-!
Shallow embedding of the authentication / authorization core of the
DIMO MCP server (TypeScript sources under `src/`).

The embedded functions mirror, line by line, the TypeScript of:
* `helpers/identity-queries.ts` : `checkVehicleOwnership`
* `shared/command-helpers.ts`   : `validateVehicleOperation`,
                                  `getVehicleJwtWithValidation`
* `helpers/developer-jwt.ts`    : `ensureVehicleJwt`
* `tools/vehicle-commands.ts`   : `executeVehicleCommand`
* `tools/vehicle-data.ts`       : `telemetry_query`, `batch_telemetry_query`,
                                  `identity_query`
* `index.ts`                    : `main` (startup sequence)

Network effects are made explicit: every embedded operation returns, next
to its result, the list of outbound network calls it performed, and takes
the responses of the external collaborators (identity API, token exchange,
devices API, telemetry API) as explicit oracle arguments.
-/

namespace DimoMcp

/-- JS `String.prototype.toLowerCase` as used on hex addresses:
character-wise lowercasing. -/
def lowerStr (s : String) : String := String.mk (s.data.map Char.toLower)

/-- `StoredOAuthToken` (helpers/oauth.ts).  `createDimoToken` copies the
`walletAddress` callback parameter, which is optional, into `address`,
so the address can be absent at runtime. -/
structure StoredOAuthToken where
  access_token : String
  address : Option String
  email : Option String
  created_at : Nat
  expires_at : Option Nat
deriving Repr, DecidableEq

/-- `DeveloperJWT` (helpers/developer-jwt.ts): only `headers.Authorization`
is ever inspected; `none` models an absent or empty header. -/
structure DeveloperJWT where
  authorization : Option String
deriving Repr, DecidableEq

/-- `VehicleJwtCacheEntry` (shared/types.ts). -/
structure VehicleJwtCacheEntry where
  token : DeveloperJWT
  privileges : List Nat
  expiresAt : Nat
deriving Repr, DecidableEq

/-- `AuthState` (shared/types.ts). `dimoConnected` models whether
`authState.dimo` has been set (index.ts sets it first thing in `main`). -/
structure AuthState where
  dimoConnected : Bool
  developerJwt : Option DeveloperJWT
  userOAuthToken : Option StoredOAuthToken
  vehicleJwts : List (Nat × VehicleJwtCacheEntry)
deriving Repr, DecidableEq

/-- The fresh state built at the top of index.ts:
`const authState: AuthState = { vehicleJwts: new Map() }` followed by
`authState.dimo = new DIMO("Production")`. -/
def initialAuthState : AuthState :=
  { dimoConnected := true, developerJwt := none, userOAuthToken := none,
    vehicleJwts := [] }

/-- `authState.userOAuthToken = token` in the OAuth callback
(tools/utilities.ts): unconditional overwrite. -/
def attachSession (auth : AuthState) (u : StoredOAuthToken) : AuthState :=
  { auth with userOAuthToken := some u }

/-- One outbound network request of the core. -/
inductive NetCall where
  | ownershipQuery (tokenId : Nat)
  | tokenExchange (tokenId : Nat)
  | telemetryCall (tokenId : Nat)
  | commandCall (tokenId : Nat) (endpoint : String)
  | identityCall
deriving Repr, DecidableEq

/-- Possible behaviours of the identity API on the ownership query
(`checkVehicleOwnership` in helpers/identity-queries.ts):
a thrown fetch/json exception, a non-2xx response, a 2xx response with no
`data.data.vehicle`, or a vehicle record whose `owner` field may be null. -/
inductive IdentityResp where
  | netException
  | httpError
  | noVehicle
  | vehicle (owner : Option String)
deriving Repr, DecidableEq

/-- `VehicleOwnershipResult` (helpers/identity-queries.ts). -/
structure VehicleOwnershipResult where
  tokenId : Nat
  owner : Option String
  isOwner : Bool
  error : Option String
deriving Repr, DecidableEq

/-- `checkVehicleOwnership(address, tokenId)` of helpers/identity-queries.ts.
The whole body sits in a `try`; when `address` is absent (typed `string`
but fed `userOAuthToken?.address`, which can be undefined), the expression
`address.toLowerCase()` throws a TypeError that the `catch` turns into the
`isOwner: false` result, exactly like a network exception. -/
def checkVehicleOwnership (address : Option String) (tokenId : Nat)
    (resp : IdentityResp) : VehicleOwnershipResult :=
  match resp with
  | .netException =>
    { tokenId, owner := none, isOwner := false,
      error := some "Could not query vehicle ownership" }
  | .httpError =>
    { tokenId, owner := none, isOwner := false,
      error := some "Failed to query vehicle ownership" }
  | .noVehicle =>
    { tokenId, owner := none, isOwner := false,
      error := some "Vehicle not found or no data returned" }
  | .vehicle owner =>
    match address with
    | none =>
      { tokenId, owner := none, isOwner := false,
        error := some "Could not query vehicle ownership" }
    | some a =>
      { tokenId, owner,
        isOwner := (owner.map lowerStr) == some (lowerStr a), error := none }

/-- The two denial payloads of `validateVehicleOperation`. -/
inductive GateDenial where
  | notLoggedIn
  | notOwner
deriving Repr, DecidableEq

/-- The exact `text` field the gate returns with each denial. -/
def GateDenial.message : GateDenial → String
  | .notLoggedIn => "You are not logged in, please login."
  | .notOwner => "You are not the owner of this vehicle, sorry."

/-- Result of the gate together with the network calls it made. -/
structure GateResult where
  denial : Option GateDenial
  trace : List NetCall
deriving Repr, DecidableEq

/-- `validateVehicleOperation(authState, tokenId)` of
shared/command-helpers.ts.  Note the source calls `checkVehicleOwnership`
unconditionally once the session check passed, and only afterwards tests
`!config.FLEET_MODE && !ownership.isOwner`. -/
def validateVehicleOperation (fleetMode : Bool) (auth : AuthState)
    (tokenId : Nat) (resp : IdentityResp) : GateResult :=
  match auth.userOAuthToken with
  | none => { denial := some .notLoggedIn, trace := [] }
  | some u =>
    let ownership := checkVehicleOwnership u.address tokenId resp
    if !fleetMode && !ownership.isOwner then
      { denial := some .notOwner, trace := [.ownershipQuery tokenId] }
    else
      { denial := none, trace := [.ownershipQuery tokenId] }

/-- The exceptions `ensureVehicleJwt` (helpers/developer-jwt.ts) can throw,
plus the failure of the token-exchange request itself. -/
inductive JwtError where
  | dimoMissing
  | devJwtMissing
  | userNotAuthenticated
  | exchangeFailed (msg : String)
deriving Repr, DecidableEq

/-- The exact `Error` messages thrown by `ensureVehicleJwt`. -/
def JwtError.message : JwtError → String
  | .dimoMissing => "DIMO not initialized."
  | .devJwtMissing =>
      "Developer JWT not configured. Please provide developer JWT credentials."
  | .userNotAuthenticated =>
      "User not authenticated, please login and share a vehicle with me."
  | .exchangeFailed msg => msg

/-- Result of a JWT acquisition attempt and the network calls it made. -/
structure JwtCallResult where
  result : Except JwtError DeveloperJWT
  trace : List NetCall
deriving Repr

/-- `ensureVehicleJwt(authState, tokenId)` of helpers/developer-jwt.ts,
the variant imported by shared/command-helpers.ts (the identical copy in
shared/auth-helpers.ts is used by the superseded tool variants).  It
checks `authState.dimo`, `authState.developerJwt` and
`authState.userOAuthToken` in that order and then always calls
`getVehicleJWT`, i.e. the token-exchange endpoint; it never reads or
writes `authState.vehicleJwts`. -/
def ensureVehicleJwt (auth : AuthState) (tokenId : Nat)
    (exchange : Nat → Except String DeveloperJWT) : JwtCallResult :=
  if !auth.dimoConnected then
    { result := .error .dimoMissing, trace := [] }
  else match auth.developerJwt with
  | none => { result := .error .devJwtMissing, trace := [] }
  | some _ =>
    match auth.userOAuthToken with
    | none => { result := .error .userNotAuthenticated, trace := [] }
    | some _ =>
      match exchange tokenId with
      | .ok jwt => { result := .ok jwt, trace := [.tokenExchange tokenId] }
      | .error msg =>
        { result := .error (.exchangeFailed msg),
          trace := [.tokenExchange tokenId] }

/-- Running `ensureVehicleJwt` twice in a row on the same state, as the
host does when two tool calls for the same vehicle arrive back to back.
The TypeScript function mutates nothing (in particular it never writes
`authState.vehicleJwts`), so the second call sees the same state. -/
def ensureVehicleJwtTwiceTrace (auth : AuthState) (tokenId : Nat)
    (exchange : Nat → Except String DeveloperJWT) : List NetCall :=
  (ensureVehicleJwt auth tokenId exchange).trace ++
    (ensureVehicleJwt auth tokenId exchange).trace

/-- The error results of `getVehicleJwtWithValidation`
(shared/command-helpers.ts). -/
inductive JwtValidationError where
  | notConfigured
  | missingAuthorization
  | wrapped (e : JwtError)
deriving Repr, DecidableEq

/-- Result of `getVehicleJwtWithValidation` and its network calls. -/
structure JwtValidationResult where
  result : Except JwtValidationError DeveloperJWT
  trace : List NetCall
deriving Repr

/-- `getVehicleJwtWithValidation(authState, tokenId, customErrorMessage)`
of shared/command-helpers.ts: early `notConfigured` error when
`authState.developerJwt` is absent, then `ensureVehicleJwt` inside a
`try` whose `catch` wraps the thrown message, then the
`jwt.headers.Authorization` presence check. -/
def getVehicleJwtWithValidation (auth : AuthState) (tokenId : Nat)
    (exchange : Nat → Except String DeveloperJWT) : JwtValidationResult :=
  match auth.developerJwt with
  | none => { result := .error .notConfigured, trace := [] }
  | some _ =>
    let c := ensureVehicleJwt auth tokenId exchange
    match c.result with
    | .error e => { result := .error (.wrapped e), trace := c.trace }
    | .ok jwt =>
      match jwt.authorization with
      | none => { result := .error .missingAuthorization, trace := c.trace }
      | some _ => { result := .ok jwt, trace := c.trace }

/-- Response of the devices API to a command POST. -/
inductive HttpResp where
  | ok (body : String)
  | notOk (statusText : String) (body : String)
deriving Repr, DecidableEq

/-- Response of the telemetry API to one query: transport failure,
2xx with GraphQL `errors` (flagged when the shared heuristic detects a
schema problem), or a clean payload. -/
inductive TelemetryResp where
  | notOk (statusText : String) (body : String)
  | gqlErrors (schemaIssue : Bool)
  | ok (body : String)
deriving Repr, DecidableEq

/-- The external collaborators, as response oracles keyed by vehicle. -/
structure World where
  identity : Nat → IdentityResp
  exchange : Nat → Except String DeveloperJWT
  command : Nat → String → HttpResp
  telemetry : Nat → TelemetryResp

/-- Outcome of a single resource-scoped operation. -/
inductive OpOutcome where
  | denial (d : GateDenial)
  | invalidQuery
  | jwtFailure (e : JwtValidationError)
  | httpFailure (statusText : String) (body : String)
  | gqlFailure (schemaIssue : Bool)
  | success (body : String)
deriving Repr, DecidableEq

/-- An operation result with its network-call trace. -/
structure OpResult where
  outcome : OpOutcome
  trace : List NetCall
deriving Repr, DecidableEq

/-- `executeVehicleCommand(authState, tokenId, endpoint, body)` of
tools/vehicle-commands.ts: gate, then JWT with validation, then the POST
to the devices API. -/
def executeVehicleCommand (fleetMode : Bool) (auth : AuthState)
    (tokenId : Nat) (endpoint : String) (w : World) : OpResult :=
  let gate := validateVehicleOperation fleetMode auth tokenId
                (w.identity tokenId)
  match gate.denial with
  | some d => { outcome := .denial d, trace := gate.trace }
  | none =>
    let jr := getVehicleJwtWithValidation auth tokenId w.exchange
    match jr.result with
    | .error e => { outcome := .jwtFailure e, trace := gate.trace ++ jr.trace }
    | .ok _ =>
      match w.command tokenId endpoint with
      | .notOk st body =>
        { outcome := .httpFailure st body,
          trace := gate.trace ++ jr.trace ++ [.commandCall tokenId endpoint] }
      | .ok body =>
        { outcome := .success body,
          trace := gate.trace ++ jr.trace ++ [.commandCall tokenId endpoint] }

/-- `telemetry_query` of tools/vehicle-data.ts (current variant):
gate, then GraphQL parse of the query string, then JWT with validation,
then the telemetry POST. -/
def telemetryQuery (fleetMode : Bool) (auth : AuthState) (tokenId : Nat)
    (queryValid : Bool) (w : World) : OpResult :=
  let gate := validateVehicleOperation fleetMode auth tokenId
                (w.identity tokenId)
  match gate.denial with
  | some d => { outcome := .denial d, trace := gate.trace }
  | none =>
    if !queryValid then { outcome := .invalidQuery, trace := gate.trace }
    else
      let jr := getVehicleJwtWithValidation auth tokenId w.exchange
      match jr.result with
      | .error e =>
        { outcome := .jwtFailure e, trace := gate.trace ++ jr.trace }
      | .ok _ =>
        match w.telemetry tokenId with
        | .notOk st body =>
          { outcome := .httpFailure st body,
            trace := gate.trace ++ jr.trace ++ [.telemetryCall tokenId] }
        | .gqlErrors schemaIssue =>
          { outcome := .gqlFailure schemaIssue,
            trace := gate.trace ++ jr.trace ++ [.telemetryCall tokenId] }
        | .ok body =>
          { outcome := .success body,
            trace := gate.trace ++ jr.trace ++ [.telemetryCall tokenId] }

/-- Response of the identity API to a plain `identity_query` call. -/
inductive IdentityQueryResp where
  | notOk (statusText : String) (body : String)
  | gqlErrors (schemaIssue : Bool)
  | ok (body : String)
deriving Repr, DecidableEq

/-- `identity_query` of tools/vehicle-data.ts: parse, then the public
POST.  It reads nothing from `authState`. -/
def identityQuery (queryValid : Bool) (resp : IdentityQueryResp) : OpResult :=
  if !queryValid then { outcome := .invalidQuery, trace := [] }
  else
    match resp with
    | .notOk st body =>
      { outcome := .httpFailure st body, trace := [.identityCall] }
    | .gqlErrors schemaIssue =>
      { outcome := .gqlFailure schemaIssue, trace := [.identityCall] }
    | .ok body => { outcome := .success body, trace := [.identityCall] }

/-- Whether the settled telemetry request for one vehicle of a batch ended
in the `successfulResults` list (fulfilled with no GraphQL errors) rather
than in `failedResults`. -/
def telemetrySucceeded (w : World) (tid : Nat) : Bool :=
  match w.telemetry tid with
  | .ok _ => true
  | _ => false

/-- Outcome of `batch_telemetry_query` (tools/vehicle-data.ts).
`validationAbort` is the single `isError` result `Validation failed for N
vehicle(s): ...`, `jwtAbort` the single `JWT retrieval failed for N
vehicle(s): ...`, and `batchReport` the combined result with its
`summary` block (`total`, and the `results` / `errors` lists whose
lengths are the `successful` / `failed` counts). -/
inductive BatchOutcome where
  | invalidQuery
  | validationAbort (failures : List (Nat × GateDenial))
  | jwtAbort (failures : List (Nat × JwtValidationError))
  | batchReport (total : Nat) (successful : List Nat) (failed : List Nat)
deriving Repr, DecidableEq

/-- A batch result with its network-call trace. -/
structure BatchResult where
  outcome : BatchOutcome
  trace : List NetCall
deriving Repr, DecidableEq

/-- `batch_telemetry_query` of tools/vehicle-data.ts: parse, then the
gate for all tokenIds (`Promise.all`), aborting the whole call if any
gate failed; then JWTs for all tokenIds, aborting the whole call if any
failed; then the per-vehicle telemetry queries (`Promise.allSettled`),
whose failures alone are collected per tokenId next to the successes. -/
def batchTelemetryQuery (fleetMode : Bool) (auth : AuthState)
    (tokenIds : List Nat) (queryValid : Bool) (w : World) : BatchResult :=
  if !queryValid then { outcome := .invalidQuery, trace := [] }
  else
    let gates := tokenIds.map fun tid =>
      (tid, validateVehicleOperation fleetMode auth tid (w.identity tid))
    let gateTrace := (gates.map fun g => g.2.trace).flatten
    let validationErrors := gates.filterMap fun g =>
      g.2.denial.map fun d => (g.1, d)
    if validationErrors.length > 0 then
      { outcome := .validationAbort validationErrors, trace := gateTrace }
    else
      let jwts := tokenIds.map fun tid =>
        (tid, getVehicleJwtWithValidation auth tid w.exchange)
      let jwtTrace := (jwts.map fun j => j.2.trace).flatten
      let jwtErrors := jwts.filterMap fun j =>
        match j.2.result with
        | .error e => some (j.1, e)
        | .ok _ => none
      if jwtErrors.length > 0 then
        { outcome := .jwtAbort jwtErrors, trace := gateTrace ++ jwtTrace }
      else
        let callTrace := tokenIds.map fun tid => NetCall.telemetryCall tid
        let successful := tokenIds.filter fun tid => telemetrySucceeded w tid
        let failed := tokenIds.filter fun tid => !(telemetrySucceeded w tid)
        { outcome := .batchReport tokenIds.length successful failed,
          trace := gateTrace ++ jwtTrace ++ callTrace }

/-- The structured log events of `main` (index.ts). -/
inductive StartupEvent where
  | noClientId
  | devJwtSuccess
  | devJwtFailed (msg : String)
  | authConfigured
  | noDevJwt
deriving Repr, DecidableEq

/-- What `main` (index.ts) leaves behind: the process-wide auth state,
the emitted structured events, whether the tool modules were registered,
and whether the stdio transport was connected (the process keeps serving
rather than exiting). -/
structure StartupResult where
  state : AuthState
  events : List StartupEvent
  toolsRegistered : Bool
  connected : Bool
deriving Repr, DecidableEq

/-- `main` of index.ts.  `clientId = none` models `getEnvConfig` throwing
for a missing `DIMO_CLIENT_ID` (the server still connects, with no tools
registered); `devJwtResult` is the outcome of the `getDeveloperJWT`
network call.  On failure the `catch` logs the structured event and
leaves `authState.developerJwt` unset; `main` then registers all tools
and connects the transport either way. -/
def mainStartup (clientId : Option String)
    (devJwtResult : Except String DeveloperJWT) : StartupResult :=
  match clientId with
  | none =>
    { state := initialAuthState, events := [.noClientId],
      toolsRegistered := false, connected := true }
  | some _ =>
    match devJwtResult with
    | .ok jwt =>
      { state := { initialAuthState with developerJwt := some jwt },
        events := [.devJwtSuccess, .authConfigured],
        toolsRegistered := true, connected := true }
    | .error msg =>
      { state := initialAuthState,
        events := [.devJwtFailed msg, .noDevJwt],
        toolsRegistered := true, connected := true }

/-- `true` exactly on the `.success` outcome. -/
def OpOutcome.isSuccess : OpOutcome → Bool
  | .success _ => true
  | _ => false

/-- `true` exactly on the combined `summary`/`results`/`errors` outcome of a
batch call. -/
def BatchOutcome.isReport : BatchOutcome → Bool
  | .batchReport _ _ _ => true
  | _ => false

/-- `true` on `Except.ok`. -/
def exceptIsOk : Except ε α → Bool
  | .ok _ => true
  | .error _ => false

section Fixtures

/-- A user session whose wallet address is `0xAAA`. -/
def userAAA : StoredOAuthToken :=
  { access_token := "tok", address := some "0xAAA", email := none,
    created_at := 0, expires_at := none }

/-- A user session created by `createDimoToken` from a callback that
carried a token but no `walletAddress`. -/
def userNoAddress : StoredOAuthToken :=
  { access_token := "tok", address := none, email := none,
    created_at := 0, expires_at := none }

/-- A configured developer JWT. -/
def devJwtOk : DeveloperJWT := { authorization := some "Bearer dev" }

/-- A vehicle-scoped JWT as returned by the token exchange. -/
def vehicleJwtOk : DeveloperJWT := { authorization := some "Bearer veh" }

/-- Fully configured state with the `0xAAA` session attached. -/
def loggedInState : AuthState :=
  { dimoConnected := true, developerJwt := some devJwtOk,
    userOAuthToken := some userAAA, vehicleJwts := [] }

/-- Fully configured state with a session that has no wallet address. -/
def noAddressState : AuthState :=
  { loggedInState with userOAuthToken := some userNoAddress }

/-- `loggedInState` with a fresh, unexpired cache entry for vehicle `r`
holding every privilege the tools ever need. -/
def cacheHotState (r : Nat) : AuthState :=
  { loggedInState with
    vehicleJwts :=
      [(r, { token := vehicleJwtOk, privileges := [1, 2, 3, 4, 5],
             expiresAt := 999999999999 })] }

/-- A token exchange that always succeeds. -/
def exchangeAlwaysOk : Nat → Except String DeveloperJWT :=
  fun _ => .ok vehicleJwtOk

/-- Identity API when every vehicle is owned by the session address
(`0xaaa` differs from `0xAAA` only by case). -/
def benignWorld : World :=
  { identity := fun _ => .vehicle (some "0xaaa"),
    exchange := exchangeAlwaysOk,
    command := fun _ _ => .ok "command accepted",
    telemetry := fun _ => .ok "telemetry data" }

/-- Identity API when vehicle `2` is owned by someone else (`0xBBB`) and
every other vehicle by the session address; everything else succeeds. -/
def vehicle2ForeignWorld : World :=
  { benignWorld with
    identity := fun tid =>
      if tid == 2 then .vehicle (some "0xBBB") else .vehicle (some "0xaaa") }

/-- Everything owned and exchanged fine, but the telemetry query for
vehicle `2` comes back with GraphQL errors. -/
def vehicle2UpstreamFailWorld : World :=
  { benignWorld with
    telemetry := fun tid =>
      if tid == 2 then .gqlErrors false else .ok "telemetry data" }

/-- Scenario of §8: service configured but no user ever logged in. -/
def configuredNoSessionState : AuthState :=
  { loggedInState with userOAuthToken := none }

end Fixtures

/-- C4: with no user session attached, the gate denies with `NotLoggedIn`
whatever the fleet-mode flag and the actual ownership are, and the whole
invocation (gate, command tool, telemetry tool) performs no network call
at all. -/
theorem noSession_notLoggedIn_no_network
    (fleetMode : Bool) (auth : AuthState) (tokenId : Nat) (endpoint : String)
    (queryValid : Bool) (w : World) (h : auth.userOAuthToken = none) :
    (validateVehicleOperation fleetMode auth tokenId (w.identity tokenId)).denial
        = some .notLoggedIn ∧
    (validateVehicleOperation fleetMode auth tokenId (w.identity tokenId)).trace
        = [] ∧
    (executeVehicleCommand fleetMode auth tokenId endpoint w).outcome =
        .denial .notLoggedIn ∧
    (executeVehicleCommand fleetMode auth tokenId endpoint w).trace = [] ∧
    (telemetryQuery fleetMode auth tokenId queryValid w).outcome =
        .denial .notLoggedIn ∧
    (telemetryQuery fleetMode auth tokenId queryValid w).trace = [] := by
  simp [validateVehicleOperation, executeVehicleCommand, telemetryQuery, h]

/-- Witness for C4: Scenario B, a `lock_doors` call on vehicle `12345`
with the service configured, no session and fleet mode off. -/
theorem noSession_notLoggedIn_no_network_witness :
    (executeVehicleCommand false configuredNoSessionState 12345 "doors/lock"
        benignWorld).outcome = .denial .notLoggedIn ∧
    (executeVehicleCommand false configuredNoSessionState 12345 "doors/lock"
        benignWorld).trace = [] := by
  have h := noSession_notLoggedIn_no_network false configuredNoSessionState
    12345 "doors/lock" true benignWorld rfl
  exact ⟨h.2.2.1, h.2.2.2.1⟩

/-- C5: with fleet mode enabled and any user session attached, the gate
returns Ok for every identity-API answer, including one naming a foreign
owner. -/
theorem fleetMode_gate_ok (auth : AuthState) (u : StoredOAuthToken)
    (tokenId : Nat) (resp : IdentityResp)
    (hu : auth.userOAuthToken = some u) :
    (validateVehicleOperation true auth tokenId resp).denial = none := by
  simp [validateVehicleOperation, hu]

/-- Witness for C5: session address `0xAAA`, vehicle owned by `0xBBB`,
fleet mode on: the gate passes. -/
theorem fleetMode_gate_ok_witness :
    (validateVehicleOperation true loggedInState 12345
        (.vehicle (some "0xBBB"))).denial = none :=
  fleetMode_gate_ok loggedInState userAAA 12345 (.vehicle (some "0xBBB")) rfl

/-- Counterexample to C6: with fleet mode on and a session attached, the
gate does return Ok, but the invocation still issues the ownership query
to the public identity API — the check is not skipped, only its result is
ignored. -/
theorem fleet_gate_queries_owner_cex :
    (validateVehicleOperation true loggedInState 5
        (.vehicle (some "0xBBB"))).denial = none ∧
    NetCall.ownershipQuery 5 ∈
      (validateVehicleOperation true loggedInState 5
        (.vehicle (some "0xBBB"))).trace := by
  decide

/-- C6 as amended: with fleet mode on and a session attached the gate
returns Ok regardless of ownership, but its trace always contains exactly
the ownership query for the resource. -/
theorem fleet_gate_ok_owner_still_queried (auth : AuthState)
    (u : StoredOAuthToken) (tokenId : Nat) (resp : IdentityResp)
    (hu : auth.userOAuthToken = some u) :
    (validateVehicleOperation true auth tokenId resp).denial = none ∧
    (validateVehicleOperation true auth tokenId resp).trace =
      [.ownershipQuery tokenId] := by
  simp [validateVehicleOperation, hu]

/-- Witness for the amended C6. -/
theorem fleet_gate_ok_owner_still_queried_witness :
    (validateVehicleOperation true loggedInState 5
        (.vehicle (some "0xBBB"))).denial = none ∧
    (validateVehicleOperation true loggedInState 5
        (.vehicle (some "0xBBB"))).trace = [.ownershipQuery 5] :=
  fleet_gate_ok_owner_still_queried loggedInState userAAA 5
    (.vehicle (some "0xBBB")) rfl

/-- C10: a session without a wallet address, with fleet mode off, is
denied `NotOwner` on every resource-scoped operation for every possible
identity-API behaviour: the missing address makes `checkVehicleOwnership`
fall into its catch-all `isOwner = false` result instead of raising. -/
theorem missing_address_fail_closed (auth : AuthState)
    (u : StoredOAuthToken) (tokenId : Nat) (resp : IdentityResp)
    (endpoint : String) (w : World)
    (hu : auth.userOAuthToken = some u) (ha : u.address = none) :
    (checkVehicleOwnership u.address tokenId resp).isOwner = false ∧
    (validateVehicleOperation false auth tokenId resp).denial =
      some .notOwner ∧
    (executeVehicleCommand false auth tokenId endpoint w).outcome =
      .denial .notOwner := by
  have hown : ∀ r : IdentityResp,
      (checkVehicleOwnership u.address tokenId r).isOwner = false := by
    intro r
    rcases r <;> simp [checkVehicleOwnership, ha]
  have hgate : ∀ r : IdentityResp,
      (validateVehicleOperation false auth tokenId r).denial =
        some .notOwner := by
    intro r
    simp [validateVehicleOperation, hu, hown r]
  refine ⟨hown resp, hgate resp, ?_⟩
  simp [executeVehicleCommand, hgate (w.identity tokenId)]

/-- Witness for C10: address-less session, vehicle `9`, identity API
answering with a well-formed owner record. -/
theorem missing_address_fail_closed_witness :
    (executeVehicleCommand false noAddressState 9 "doors/lock"
        benignWorld).outcome = .denial .notOwner :=
  (missing_address_fail_closed noAddressState userNoAddress 9
    (.vehicle (some "0xaaa")) "doors/lock" benignWorld rfl rfl).2.2

/-- C3: with fleet mode off and a session attached, the gate returns Ok
exactly when the live ownership query came back with an owner equal,
case-insensitively, to the session address; every other situation
(different owner, null owner, missing address, lookup failure of any
kind) yields the `NotOwner` denial. -/
theorem gate_fleet_off_ownership_iff (auth : AuthState)
    (u : StoredOAuthToken) (tokenId : Nat) (resp : IdentityResp)
    (hu : auth.userOAuthToken = some u) :
    ((validateVehicleOperation false auth tokenId resp).denial = none ↔
      (checkVehicleOwnership u.address tokenId resp).isOwner = true) ∧
    ((checkVehicleOwnership u.address tokenId resp).isOwner = true ↔
      ∃ o a, resp = .vehicle (some o) ∧ u.address = some a ∧
        lowerStr o = lowerStr a) ∧
    ((validateVehicleOperation false auth tokenId resp).denial = none ∨
      (validateVehicleOperation false auth tokenId resp).denial =
        some .notOwner) := by
  refine ⟨?_, ?_, ?_⟩
  · by_cases h : (checkVehicleOwnership u.address tokenId resp).isOwner <;>
      simp [validateVehicleOperation, hu, h]
  · rcases resp with _ | _ | _ | owner
    · simp [checkVehicleOwnership]
    · simp [checkVehicleOwnership]
    · simp [checkVehicleOwnership]
    · rcases ha : u.address with _ | a
      · simp [checkVehicleOwnership, ha]
      · rcases owner with _ | o
        · simp [checkVehicleOwnership, ha]
        · simp [checkVehicleOwnership, ha]
  · by_cases h : (checkVehicleOwnership u.address tokenId resp).isOwner <;>
      simp [validateVehicleOperation, hu, h]

/-- Witness for C3: owner `0xABC` matches session address `0xAbC` up to
case, so the gate passes; flipping the owner to `0xBBB` denies. -/
theorem gate_fleet_off_ownership_iff_witness :
    (validateVehicleOperation false loggedInState 5
        (.vehicle (some "0xaaa"))).denial = none ∧
    (validateVehicleOperation false loggedInState 5
        (.vehicle (some "0xBBB"))).denial = some .notOwner := by
  constructor
  · exact (gate_fleet_off_ownership_iff loggedInState userAAA 5
      (.vehicle (some "0xaaa")) rfl).1.mpr (by decide)
  · have h := gate_fleet_off_ownership_iff loggedInState userAAA 5
      (.vehicle (some "0xBBB")) rfl
    rcases h.2.2 with hok | hden
    · exact absurd ((h.1.mp hok)) (by decide)
    · exact hden

/-- C8: with the DIMO client set up (index.ts does so unconditionally
before any tool runs), JWT acquisition fails with the `NotConfigured`
message when no developer JWT exists, and with the not-authenticated
message when a developer JWT exists but no user session is attached; in
both cases no token exchange is performed. -/
theorem ensureToken_preconditions (auth : AuthState) (tokenId : Nat)
    (exchange : Nat → Except String DeveloperJWT)
    (hd : auth.dimoConnected = true) :
    (auth.developerJwt = none →
      (getVehicleJwtWithValidation auth tokenId exchange).result =
        .error .notConfigured ∧
      (getVehicleJwtWithValidation auth tokenId exchange).trace = []) ∧
    (∀ j, auth.developerJwt = some j → auth.userOAuthToken = none →
      (ensureVehicleJwt auth tokenId exchange).result =
        .error .userNotAuthenticated ∧
      (ensureVehicleJwt auth tokenId exchange).trace = [] ∧
      (getVehicleJwtWithValidation auth tokenId exchange).result =
        .error (.wrapped .userNotAuthenticated) ∧
      (getVehicleJwtWithValidation auth tokenId exchange).trace = []) := by
  constructor
  · intro h
    simp [getVehicleJwtWithValidation, h]
  · intro j hj hu
    have he : ensureVehicleJwt auth tokenId exchange =
        { result := .error .userNotAuthenticated, trace := [] } := by
      simp [ensureVehicleJwt, hd, hj, hu]
    refine ⟨by rw [he], by rw [he], ?_, ?_⟩ <;>
      simp [getVehicleJwtWithValidation, hj, he]

/-- Witness for C8: a state missing the developer JWT gives
`NotConfigured`; a configured state with no session gives the wrapped
not-authenticated failure with an empty network trace. -/
theorem ensureToken_preconditions_witness :
    (getVehicleJwtWithValidation { loggedInState with developerJwt := none }
        3 exchangeAlwaysOk).result = .error .notConfigured ∧
    (getVehicleJwtWithValidation configuredNoSessionState 3
        exchangeAlwaysOk).result = .error (.wrapped .userNotAuthenticated) ∧
    (ensureVehicleJwt configuredNoSessionState 3 exchangeAlwaysOk).trace
        = [] := by
  refine ⟨?_, ?_, ?_⟩
  · exact ((ensureToken_preconditions
      { loggedInState with developerJwt := none } 3 exchangeAlwaysOk
      rfl).1 rfl).1
  · exact ((ensureToken_preconditions configuredNoSessionState 3
      exchangeAlwaysOk rfl).2 devJwtOk rfl rfl).2.2.1
  · exact ((ensureToken_preconditions configuredNoSessionState 3
      exchangeAlwaysOk rfl).2 devJwtOk rfl rfl).2.1

/-- C2 (code bug evidence): although the cache holds a fresh, unexpired
entry for vehicle `7` granting every privilege, `ensureVehicleJwt` never
consults `authState.vehicleJwts`: a single call already performs a token
exchange, and two successive calls perform two — there is no cache hit. -/
theorem cache_never_consulted_two_exchanges :
    (cacheHotState 7).vehicleJwts =
      [(7, { token := vehicleJwtOk, privileges := [1, 2, 3, 4, 5],
             expiresAt := 999999999999 })] ∧
    (ensureVehicleJwt (cacheHotState 7) 7 exchangeAlwaysOk).trace =
      [.tokenExchange 7] ∧
    (ensureVehicleJwtTwiceTrace (cacheHotState 7) 7 exchangeAlwaysOk).count
      (.tokenExchange 7) = 2 := by
  decide

/-- Stage ordering of `executeVehicleCommand`: its network trace is
always a prefix of gate-query, token-exchange, upstream-command, a gate
denial stops before the exchange, and a JWT failure stops before the
upstream call. -/
theorem executeVehicleCommand_order_aux (fleetMode : Bool)
    (auth : AuthState) (tokenId : Nat) (endpoint : String) (w : World) :
    ((executeVehicleCommand fleetMode auth tokenId endpoint w).trace = [] ∨
     (executeVehicleCommand fleetMode auth tokenId endpoint w).trace =
       [.ownershipQuery tokenId] ∨
     (executeVehicleCommand fleetMode auth tokenId endpoint w).trace =
       [.ownershipQuery tokenId, .tokenExchange tokenId] ∨
     (executeVehicleCommand fleetMode auth tokenId endpoint w).trace =
       [.ownershipQuery tokenId, .tokenExchange tokenId,
        .commandCall tokenId endpoint]) ∧
    ((∃ d, (executeVehicleCommand fleetMode auth tokenId endpoint w).outcome =
        .denial d) →
      NetCall.tokenExchange tokenId ∉
        (executeVehicleCommand fleetMode auth tokenId endpoint w).trace ∧
      NetCall.commandCall tokenId endpoint ∉
        (executeVehicleCommand fleetMode auth tokenId endpoint w).trace) ∧
    ((∃ e, (executeVehicleCommand fleetMode auth tokenId endpoint w).outcome =
        .jwtFailure e) →
      NetCall.commandCall tokenId endpoint ∉
        (executeVehicleCommand fleetMode auth tokenId endpoint w).trace) := by
  obtain ⟨dimo, devJwt, user, cache⟩ := auth
  rcases user with _ | u
  · simp [executeVehicleCommand, validateVehicleOperation]
  · rcases hb : (!fleetMode &&
      !(checkVehicleOwnership u.address tokenId (w.identity tokenId)).isOwner)
    · rcases devJwt with _ | j
      · simp [executeVehicleCommand, validateVehicleOperation, hb,
          getVehicleJwtWithValidation]
      · rcases dimo
        · simp [executeVehicleCommand, validateVehicleOperation, hb,
            getVehicleJwtWithValidation, ensureVehicleJwt]
        · rcases hx : w.exchange tokenId with msg | jwt
          · simp [executeVehicleCommand, validateVehicleOperation, hb,
              getVehicleJwtWithValidation, ensureVehicleJwt, hx]
          · rcases hauth : jwt.authorization with _ | s
            · simp [executeVehicleCommand, validateVehicleOperation, hb,
                getVehicleJwtWithValidation, ensureVehicleJwt, hx, hauth]
            · rcases hc : w.command tokenId endpoint <;>
                simp [executeVehicleCommand, validateVehicleOperation, hb,
                  getVehicleJwtWithValidation, ensureVehicleJwt, hx, hauth, hc]
    · simp [executeVehicleCommand, validateVehicleOperation, hb]

/-- Stage ordering of `telemetry_query`, mirror image of
`executeVehicleCommand_order_aux` with the telemetry upstream call. -/
theorem telemetryQuery_order_aux (fleetMode : Bool) (auth : AuthState)
    (tokenId : Nat) (queryValid : Bool) (w : World) :
    ((telemetryQuery fleetMode auth tokenId queryValid w).trace = [] ∨
     (telemetryQuery fleetMode auth tokenId queryValid w).trace =
       [.ownershipQuery tokenId] ∨
     (telemetryQuery fleetMode auth tokenId queryValid w).trace =
       [.ownershipQuery tokenId, .tokenExchange tokenId] ∨
     (telemetryQuery fleetMode auth tokenId queryValid w).trace =
       [.ownershipQuery tokenId, .tokenExchange tokenId,
        .telemetryCall tokenId]) ∧
    ((∃ d, (telemetryQuery fleetMode auth tokenId queryValid w).outcome =
        .denial d) →
      NetCall.tokenExchange tokenId ∉
        (telemetryQuery fleetMode auth tokenId queryValid w).trace ∧
      NetCall.telemetryCall tokenId ∉
        (telemetryQuery fleetMode auth tokenId queryValid w).trace) ∧
    ((∃ e, (telemetryQuery fleetMode auth tokenId queryValid w).outcome =
        .jwtFailure e) →
      NetCall.telemetryCall tokenId ∉
        (telemetryQuery fleetMode auth tokenId queryValid w).trace) := by
  obtain ⟨dimo, devJwt, user, cache⟩ := auth
  rcases user with _ | u
  · simp [telemetryQuery, validateVehicleOperation]
  · rcases hb : (!fleetMode &&
      !(checkVehicleOwnership u.address tokenId (w.identity tokenId)).isOwner)
    · rcases queryValid
      · simp [telemetryQuery, validateVehicleOperation, hb]
      · rcases devJwt with _ | j
        · simp [telemetryQuery, validateVehicleOperation, hb,
            getVehicleJwtWithValidation]
        · rcases dimo
          · simp [telemetryQuery, validateVehicleOperation, hb,
              getVehicleJwtWithValidation, ensureVehicleJwt]
          · rcases hx : w.exchange tokenId with msg | jwt
            · simp [telemetryQuery, validateVehicleOperation, hb,
                getVehicleJwtWithValidation, ensureVehicleJwt, hx]
            · rcases hauth : jwt.authorization with _ | s
              · simp [telemetryQuery, validateVehicleOperation, hb,
                  getVehicleJwtWithValidation, ensureVehicleJwt, hx, hauth]
              · rcases hc : w.telemetry tokenId <;>
                  simp [telemetryQuery, validateVehicleOperation, hb,
                    getVehicleJwtWithValidation, ensureVehicleJwt, hx, hauth, hc]
    · simp [telemetryQuery, validateVehicleOperation, hb]

/-- C7: in every single resource-scoped invocation (vehicle command or
telemetry query) the gate query strictly precedes the token exchange,
which strictly precedes the upstream call; a gate denial performs no
exchange and no upstream call, and a JWT failure performs no upstream
call. -/
theorem pipeline_gate_before_exchange_before_upstream (fleetMode : Bool)
    (auth : AuthState) (tokenId : Nat) (endpoint : String)
    (queryValid : Bool) (w : World) :
    (((executeVehicleCommand fleetMode auth tokenId endpoint w).trace = [] ∨
      (executeVehicleCommand fleetMode auth tokenId endpoint w).trace =
        [.ownershipQuery tokenId] ∨
      (executeVehicleCommand fleetMode auth tokenId endpoint w).trace =
        [.ownershipQuery tokenId, .tokenExchange tokenId] ∨
      (executeVehicleCommand fleetMode auth tokenId endpoint w).trace =
        [.ownershipQuery tokenId, .tokenExchange tokenId,
         .commandCall tokenId endpoint]) ∧
     ((∃ d, (executeVehicleCommand fleetMode auth tokenId endpoint w).outcome
        = .denial d) →
       NetCall.tokenExchange tokenId ∉
         (executeVehicleCommand fleetMode auth tokenId endpoint w).trace ∧
       NetCall.commandCall tokenId endpoint ∉
         (executeVehicleCommand fleetMode auth tokenId endpoint w).trace) ∧
     ((∃ e, (executeVehicleCommand fleetMode auth tokenId endpoint w).outcome
        = .jwtFailure e) →
       NetCall.commandCall tokenId endpoint ∉
         (executeVehicleCommand fleetMode auth tokenId endpoint w).trace)) ∧
    (((telemetryQuery fleetMode auth tokenId queryValid w).trace = [] ∨
      (telemetryQuery fleetMode auth tokenId queryValid w).trace =
        [.ownershipQuery tokenId] ∨
      (telemetryQuery fleetMode auth tokenId queryValid w).trace =
        [.ownershipQuery tokenId, .tokenExchange tokenId] ∨
      (telemetryQuery fleetMode auth tokenId queryValid w).trace =
        [.ownershipQuery tokenId, .tokenExchange tokenId,
         .telemetryCall tokenId]) ∧
     ((∃ d, (telemetryQuery fleetMode auth tokenId queryValid w).outcome =
        .denial d) →
       NetCall.tokenExchange tokenId ∉
         (telemetryQuery fleetMode auth tokenId queryValid w).trace ∧
       NetCall.telemetryCall tokenId ∉
         (telemetryQuery fleetMode auth tokenId queryValid w).trace) ∧
     ((∃ e, (telemetryQuery fleetMode auth tokenId queryValid w).outcome =
        .jwtFailure e) →
       NetCall.telemetryCall tokenId ∉
         (telemetryQuery fleetMode auth tokenId queryValid w).trace)) :=
  ⟨executeVehicleCommand_order_aux fleetMode auth tokenId endpoint w,
   telemetryQuery_order_aux fleetMode auth tokenId queryValid w⟩

/-- Witness for C7: a gate-denied command (address-less session) performs
no token exchange, and an exchange-failing telemetry query performs no
upstream call. -/
theorem pipeline_order_witness :
    NetCall.tokenExchange 9 ∉
      (executeVehicleCommand false noAddressState 9 "doors/lock"
        benignWorld).trace ∧
    NetCall.telemetryCall 9 ∉
      (telemetryQuery true loggedInState 9 true
        { benignWorld with exchange := fun _ => .error "exchange down" }).trace
    := by
  constructor
  · exact ((pipeline_gate_before_exchange_before_upstream false noAddressState
      9 "doors/lock" true benignWorld).1.2.1 ⟨.notOwner, by decide⟩).1
  · exact (pipeline_gate_before_exchange_before_upstream true loggedInState
      9 "doors/lock" true
      { benignWorld with exchange := fun _ => .error "exchange down" }).2.2.2
      ⟨.wrapped (.exchangeFailed "exchange down"), by decide⟩

/-- A filter and its negation partition a list between them. -/
theorem length_filter_add_length_filter_not {α : Type} (l : List α)
    (p : α → Bool) :
    (l.filter p).length + (l.filter fun a => !(p a)).length = l.length := by
  induction l with
  | nil => simp
  | cons a t ih =>
    by_cases h : p a = true <;> simp [List.filter_cons, h] <;> omega

/-- Counterexample to C1: batch telemetry over `[1, 2, 3]` where vehicle
`2` fails the ownership check and `1`, `3` pass.  The call returns the
aggregate validation error instead of a `successful`/`failed` summary,
and vehicles `1` and `3` get neither a token exchange nor an upstream
call — one resource's gate failure aborts the whole batch. -/
theorem batch_aborts_on_gate_failure_cex :
    (batchTelemetryQuery false loggedInState [1, 2, 3] true
        vehicle2ForeignWorld).outcome = .validationAbort [(2, .notOwner)] ∧
    (batchTelemetryQuery false loggedInState [1, 2, 3] true
        vehicle2ForeignWorld).outcome.isReport = false ∧
    NetCall.telemetryCall 1 ∉
      (batchTelemetryQuery false loggedInState [1, 2, 3] true
        vehicle2ForeignWorld).trace ∧
    NetCall.tokenExchange 1 ∉
      (batchTelemetryQuery false loggedInState [1, 2, 3] true
        vehicle2ForeignWorld).trace := by
  decide

/-- C1 as amended: partial-failure semantics hold only at the upstream
stage.  When every identifier passes the gate and the token exchange, the
batch returns the summary whose `total` is the number of requested
identifiers, the `successful` and `failed` lists partition them by
upstream result, every identifier's upstream query is attempted, and no
single upstream failure aborts the others. -/
theorem batch_partial_failure_upstream_only (fleetMode : Bool)
    (auth : AuthState) (ids : List Nat) (w : World)
    (hGate : ∀ tid ∈ ids,
      (validateVehicleOperation fleetMode auth tid (w.identity tid)).denial
        = none)
    (hJwt : ∀ tid ∈ ids,
      exceptIsOk (getVehicleJwtWithValidation auth tid w.exchange).result
        = true) :
    (batchTelemetryQuery fleetMode auth ids true w).outcome =
      .batchReport ids.length
        (ids.filter fun tid => telemetrySucceeded w tid)
        (ids.filter fun tid => !(telemetrySucceeded w tid)) ∧
    (ids.filter fun tid => telemetrySucceeded w tid).length +
      (ids.filter fun tid => !(telemetrySucceeded w tid)).length =
        ids.length ∧
    ∀ tid ∈ ids, NetCall.telemetryCall tid ∈
      (batchTelemetryQuery fleetMode auth ids true w).trace := by
  have hval : (ids.map fun tid =>
      (tid, validateVehicleOperation fleetMode auth tid
        (w.identity tid))).filterMap
      (fun g => g.2.denial.map fun d => (g.1, d)) = [] := by
    rw [List.filterMap_map]
    apply List.filterMap_eq_nil_iff.mpr
    intro tid htid
    simp [hGate tid htid]
  have hjwt : (ids.map fun tid =>
      (tid, getVehicleJwtWithValidation auth tid w.exchange)).filterMap
      (fun j => match j.2.result with
        | .error e => some (j.1, e)
        | .ok _ => none) = [] := by
    rw [List.filterMap_map]
    apply List.filterMap_eq_nil_iff.mpr
    intro tid htid
    have h := hJwt tid htid
    rcases hres : (getVehicleJwtWithValidation auth tid w.exchange).result
      with v | e
    · rw [hres] at h
      simp [exceptIsOk] at h
    · simp [hres]
  have hbatch : batchTelemetryQuery fleetMode auth ids true w =
      { outcome := .batchReport ids.length
          (ids.filter fun tid => telemetrySucceeded w tid)
          (ids.filter fun tid => !(telemetrySucceeded w tid)),
        trace := ((ids.map fun tid =>
            (tid, validateVehicleOperation fleetMode auth tid
              (w.identity tid))).map fun g => g.2.trace).flatten ++
          (((ids.map fun tid =>
            (tid, getVehicleJwtWithValidation auth tid w.exchange)).map
              fun j => j.2.trace).flatten ++
          (ids.map fun tid => NetCall.telemetryCall tid)) } := by
    simp only [batchTelemetryQuery, hval, hjwt]
    simp
  refine ⟨by rw [hbatch], length_filter_add_length_filter_not ids _, ?_⟩
  intro tid htid
  rw [hbatch]
  simp only [List.mem_append]
  right; right
  exact List.mem_map_of_mem _ htid

/-- Witness for the amended C1: Scenario D shifted to the upstream stage.
With all three vehicles owned and exchanged, vehicle `2` failing only its
telemetry query, the batch reports `successful = [1, 3]`, `failed = [2]`
and `summary.total = 3`. -/
theorem batch_partial_failure_upstream_only_witness :
    (batchTelemetryQuery false loggedInState [1, 2, 3] true
        vehicle2UpstreamFailWorld).outcome = .batchReport 3 [1, 3] [2] := by
  have h := batch_partial_failure_upstream_only false loggedInState [1, 2, 3]
    vehicle2UpstreamFailWorld (by decide) (by decide)
  exact h.1.trans (by decide)

/-- In any state without a developer JWT, a vehicle command never reaches
the upstream devices API and never succeeds, and whenever it passes the
gate it fails with exactly the `NotConfigured` result. -/
theorem degraded_command_aux (fleetMode : Bool) (s : AuthState)
    (tokenId : Nat) (endpoint : String) (w : World)
    (hdev : s.developerJwt = none) :
    (executeVehicleCommand fleetMode s tokenId endpoint w).outcome.isSuccess
      = false ∧
    NetCall.commandCall tokenId endpoint ∉
      (executeVehicleCommand fleetMode s tokenId endpoint w).trace ∧
    ((validateVehicleOperation fleetMode s tokenId (w.identity tokenId)).denial
        = none →
      (executeVehicleCommand fleetMode s tokenId endpoint w).outcome =
        .jwtFailure .notConfigured) := by
  rcases hu : s.userOAuthToken with _ | u
  · simp [executeVehicleCommand, validateVehicleOperation, hu,
      OpOutcome.isSuccess]
  · rcases hb : (!fleetMode &&
      !(checkVehicleOwnership u.address tokenId (w.identity tokenId)).isOwner)
    · simp [executeVehicleCommand, validateVehicleOperation, hu, hb,
        getVehicleJwtWithValidation, hdev, OpOutcome.isSuccess]
    · simp [executeVehicleCommand, validateVehicleOperation, hu, hb,
        OpOutcome.isSuccess]

/-- Counterexample to C9 as stated: in the degraded state left by a
failed startup token acquisition, a resource-scoped call without a user
session is denied with `NotLoggedIn` — a denial different from the
`NotConfigured`-equivalent one the claim promises for every
resource-scoped operation. -/
theorem degraded_notConfigured_cex :
    (executeVehicleCommand false
        (mainStartup (some "client-id") (.error "auth failed")).state
        12345 "doors/lock" benignWorld).outcome = .denial .notLoggedIn ∧
    (executeVehicleCommand false
        (mainStartup (some "client-id") (.error "auth failed")).state
        12345 "doors/lock" benignWorld).outcome ≠
      .jwtFailure .notConfigured := by
  decide

/-- C9 as amended: when service-token acquisition fails at startup, the
structured failure events are emitted, the process-wide state is left at
its prior (fresh) value, the server still registers its tools and
connects (it does not terminate); public identity queries succeed
independently of that state, and every resource-scoped command — in the
startup state or after a user later logs in — fails before reaching the
upstream API, with exactly the `NotConfigured` failure whenever it passes
the user/ownership gate. -/
theorem degraded_mode_amended (cid msg : String) (u : StoredOAuthToken)
    (fleetMode : Bool) (tokenId : Nat) (endpoint : String) (w : World)
    (body : String) :
    (mainStartup (some cid) (.error msg)).connected = true ∧
    (mainStartup (some cid) (.error msg)).toolsRegistered = true ∧
    (mainStartup (some cid) (.error msg)).events =
      [.devJwtFailed msg, .noDevJwt] ∧
    (mainStartup (some cid) (.error msg)).state = initialAuthState ∧
    (identityQuery true (.ok body)).outcome = .success body ∧
    (∀ s, (s = (mainStartup (some cid) (.error msg)).state ∨
           s = attachSession (mainStartup (some cid) (.error msg)).state u) →
      (executeVehicleCommand fleetMode s tokenId endpoint w).outcome.isSuccess
        = false ∧
      NetCall.commandCall tokenId endpoint ∉
        (executeVehicleCommand fleetMode s tokenId endpoint w).trace ∧
      ((validateVehicleOperation fleetMode s tokenId
          (w.identity tokenId)).denial = none →
        (executeVehicleCommand fleetMode s tokenId endpoint w).outcome =
          .jwtFailure .notConfigured)) := by
  refine ⟨rfl, rfl, rfl, rfl, rfl, ?_⟩
  intro s hs
  have hdev : s.developerJwt = none := by
    rcases hs with h | h <;> subst h <;> rfl
  exact degraded_command_aux fleetMode s tokenId endpoint w hdev

/-- Witness for the amended C9: after the failed startup, a user logs in
and issues a fleet-mode command; it passes the gate and fails with
exactly the `NotConfigured` result. -/
theorem degraded_mode_amended_witness :
    (executeVehicleCommand true
        (attachSession (mainStartup (some "client-id")
          (.error "auth failed")).state userAAA)
        12345 "doors/lock" benignWorld).outcome =
      .jwtFailure .notConfigured := by
  have h := degraded_mode_amended "client-id" "auth failed" userAAA true
    12345 "doors/lock" benignWorld "payload"
  exact (h.2.2.2.2.2
    (attachSession (mainStartup (some "client-id")
      (.error "auth failed")).state userAAA)
    (Or.inr rfl)).2.2 (by decide)

end DimoMcp
